import Mathlib

/-!
Shallow embedding of `handwriting_processor/main.py` (the `handwrite` tool)
and proofs about its page-dispatch pipeline, error handling, configuration
handling and file orchestration.

External collaborators (the Gemini OCR call, PyMuPDF/PIL decoding, Jinja2
rendering, YAML parsing, the filesystem) are modelled as explicit parameters:
an external call that can raise is an `Except String _` value, the filesystem
is a partial map from paths to file contents.
-/

namespace Handwrite

/-! ### Batch dispatcher (process_single_file, lines 167-184)

`page_results = ["" for _ in images]`; one task per page is submitted to the
pool; `as_completed` yields the futures in some completion order; for each the
dispatcher reads `future.result()` (either the page text or a raised
exception) and writes into `page_results[page_index]`, an exception being
replaced by the placeholder `f"Error processing page {page_index + 1}: {exc}"`.
The completion order is an arbitrary list of page indices; `as_completed`
guarantees every submitted future is yielded exactly once. -/

/-- The placeholder stored by the dispatcher when `future.result()` raises
`exc` for the page with 0-based index `page_index`
(`f"Error processing page {page_index + 1}: {exc}"`, main.py line 179). -/
def dispatchErrorMsg (page_index : Nat) (exc : String) : String :=
  "Error processing page " ++ toString (page_index + 1) ++ ": " ++ exc

/-- The value the dispatcher stores at index `i`: the returned page text on a
normal completion, the error placeholder when the task raised. -/
def pageValue (outcome : Except String String) (i : Nat) : String :=
  match outcome with
  | .ok t => t
  | .error e => dispatchErrorMsg i e

/-- One iteration of the `for future in as_completed(...)` loop: the result of
the task for page `i` is written into slot `i` of the result list. -/
def dispatchStep (outcomes : Nat → Except String String)
    (results : List String) (i : Nat) : List String :=
  results.set i (pageValue (outcomes i) i)

/-- The whole fan-in loop of `process_single_file`: starting from
`["" for _ in images]` (length `n`), process the completed tasks in the order
given by `order`. `outcomes i` is what `future.result()` does for page `i`. -/
def dispatch (n : Nat) (outcomes : Nat → Except String String)
    (order : List Nat) : List String :=
  order.foldl (dispatchStep outcomes) (List.replicate n "")

/-- `full_text = "\n\n".join(page_results)` (main.py line 184). -/
def full_text (results : List String) : String :=
  String.intercalate "\n\n" results

theorem dispatch_foldl_length (outcomes : Nat → Except String String)
    (order : List Nat) (l : List String) :
    (order.foldl (dispatchStep outcomes) l).length = l.length := by
  induction order generalizing l with
  | nil => rfl
  | cons j rest ih =>
    simp only [List.foldl_cons]
    rw [ih]
    simp [dispatchStep]

theorem dispatch_length (n : Nat) (outcomes : Nat → Except String String)
    (order : List Nat) : (dispatch n outcomes order).length = n := by
  unfold dispatch
  rw [dispatch_foldl_length]
  simp

theorem dispatch_foldl_not_mem (outcomes : Nat → Except String String)
    (order : List Nat) (l : List String) (i : Nat) (h : i ∉ order) :
    (order.foldl (dispatchStep outcomes) l)[i]? = l[i]? := by
  induction order generalizing l with
  | nil => rfl
  | cons j rest ih =>
    simp only [List.mem_cons, not_or] at h
    simp only [List.foldl_cons]
    rw [ih _ h.2]
    exact List.getElem?_set_ne (Ne.symm h.1)

theorem dispatch_foldl_mem (outcomes : Nat → Except String String)
    (order : List Nat) (l : List String) (i : Nat)
    (hmem : i ∈ order) (hlt : i < l.length) :
    (order.foldl (dispatchStep outcomes) l)[i]? =
      some (pageValue (outcomes i) i) := by
  induction order generalizing l with
  | nil => cases hmem
  | cons j rest ih =>
    simp only [List.foldl_cons]
    by_cases hr : i ∈ rest
    · exact ih _ hr (by simpa [dispatchStep] using hlt)
    · have hij : i = j := by
        rcases List.mem_cons.mp hmem with h | h
        · exact h
        · exact absurd h hr
      subst hij
      rw [dispatch_foldl_not_mem _ _ _ _ hr]
      simp [dispatchStep, List.getElem?_set_self hlt]

theorem dispatch_getElem (n : Nat) (outcomes : Nat → Except String String)
    (order : List Nat) (i : Nat) (hmem : i ∈ order) (hlt : i < n) :
    (dispatch n outcomes order)[i]? = some (pageValue (outcomes i) i) := by
  unfold dispatch
  exact dispatch_foldl_mem outcomes order _ i hmem (by simpa using hlt)

theorem dispatch_eq_map (n : Nat) (outcomes : Nat → Except String String)
    (order : List Nat) (hperm : order.Perm (List.range n)) :
    dispatch n outcomes order
      = (List.range n).map (fun i => pageValue (outcomes i) i) := by
  apply List.ext_getElem?
  intro i
  by_cases hlt : i < n
  · rw [dispatch_getElem n outcomes order i
      (hperm.mem_iff.mpr (List.mem_range.mpr hlt)) hlt]
    rw [List.getElem?_map, List.getElem?_range hlt]
    rfl
  · rw [List.getElem?_eq_none, List.getElem?_eq_none]
    · simpa using Nat.le_of_not_lt hlt
    · rw [dispatch_length]
      exact Nat.le_of_not_lt hlt

/-- C1: for every document with `n` pages and every completion order of the
per-page tasks (a permutation of the page indices, as `as_completed` yields
each submitted future exactly once), each task's result lands at its page's
original 0-based index, so the final list equals the per-page results in
source page order and `"\n\n".join(page_results)` concatenates them in source
page order with a blank-line separator. -/
theorem dispatch_reassembles_in_page_order (n : Nat)
    (outcomes : Nat → Except String String) (order : List Nat)
    (hperm : order.Perm (List.range n)) :
    (∀ i, i < n → (dispatch n outcomes order)[i]? =
        some (pageValue (outcomes i) i)) ∧
    full_text (dispatch n outcomes order)
      = String.intercalate "\n\n"
          ((List.range n).map (fun i => pageValue (outcomes i) i)) := by
  constructor
  · intro i hlt
    exact dispatch_getElem n outcomes order i
      (hperm.mem_iff.mpr (List.mem_range.mpr hlt)) hlt
  · rw [full_text, dispatch_eq_map n outcomes order hperm]

/-- Witness for C1 at a concrete out-of-order completion. -/
theorem dispatch_reassembles_in_page_order_witness :
    ([2, 0, 1] : List Nat).Perm (List.range 3) ∧
    full_text (dispatch 3 (fun i => Except.ok (toString i)) [2, 0, 1])
      = String.intercalate "\n\n"
          ((List.range 3).map
            (fun i => pageValue (Except.ok (toString i)) i)) :=
  ⟨by decide,
   (dispatch_reassembles_in_page_order 3 (fun i => Except.ok (toString i))
      [2, 0, 1] (by decide)).2⟩

/-- C2: when the completion order covers every page (as `as_completed` yields
every submitted future), the result list has length exactly `n`, a page whose
task raised gets the error placeholder at its index, and every other page gets
its own returned text — so no index is left unset and one page's failure
never prevents the other slots from being filled. -/
theorem dispatch_length_and_placeholders (n : Nat)
    (outcomes : Nat → Except String String) (order : List Nat)
    (hcover : ∀ i, i < n → i ∈ order) :
    (dispatch n outcomes order).length = n ∧
    (∀ i, i < n → ∀ e, outcomes i = .error e →
        (dispatch n outcomes order)[i]? = some (dispatchErrorMsg i e)) ∧
    (∀ i, i < n → ∀ t, outcomes i = .ok t →
        (dispatch n outcomes order)[i]? = some t) := by
  refine ⟨dispatch_length n outcomes order, ?_, ?_⟩
  · intro i hlt e he
    rw [dispatch_getElem n outcomes order i (hcover i hlt) hlt, he]
    rfl
  · intro i hlt t ht
    rw [dispatch_getElem n outcomes order i (hcover i hlt) hlt, ht]
    rfl

/-- Witness for C2: three pages, page 1's task raises, order `[1, 2, 0]`. -/
theorem dispatch_length_and_placeholders_witness :
    (∀ i, i < 3 → i ∈ ([1, 2, 0] : List Nat)) ∧
    (dispatch 3
        (fun i => if i = 1 then Except.error "boom"
                  else Except.ok ("page" ++ toString i)) [1, 2, 0]).length = 3 ∧
    (dispatch 3
        (fun i => if i = 1 then Except.error "boom"
                  else Except.ok ("page" ++ toString i)) [1, 2, 0])[1]?
      = some (dispatchErrorMsg 1 "boom") :=
  ⟨by decide,
   (dispatch_length_and_placeholders 3 _ [1, 2, 0] (by decide)).1,
   (dispatch_length_and_placeholders 3 _ [1, 2, 0] (by decide)).2.1
      1 (by decide) "boom" rfl⟩

/-! ### Page transcriber (ocr_image_with_gemini, lines 130-138)

The external call (`genai.GenerativeModel(...)`, `generate_content`,
`response.text`) is modelled as an `Except String String`: `ok t` when the
service returns text `t`, `error e` when any step raises exception `e`.
The function catches everything and returns `f"Error: {e}"` on failure. -/

/-- `ocr_image_with_gemini`: returns the response text on success and the
string `"Error: " ++ e` when the external call raises `e`; it is a total
function — no exception ever propagates to the caller. -/
def ocr_image_with_gemini (call : Except String String) : String :=
  match call with
  | .ok t => t
  | .error e => "Error: " ++ e

/-- C5: the transcriber is total (never propagates an exception): on success
it returns the response text, on any failure the literal error string; and
when the task for page `i` completes normally (the transcriber itself never
raises, so its return value is the task's result), that string is written
into the merged result sequence at index `i` exactly like legitimate text. -/
theorem ocr_never_raises_and_flows_into_document (n : Nat)
    (calls : Nat → Except String String) (order : List Nat)
    (i : Nat) (hlt : i < n) (hmem : i ∈ order) :
    (∀ t, calls i = .ok t → ocr_image_with_gemini (calls i) = t) ∧
    (∀ e, calls i = .error e →
        ocr_image_with_gemini (calls i) = "Error: " ++ e) ∧
    (dispatch n (fun j => Except.ok (ocr_image_with_gemini (calls j)))
        order)[i]? = some (ocr_image_with_gemini (calls i)) := by
  refine ⟨?_, ?_, ?_⟩
  · intro t ht
    rw [ht]
    rfl
  · intro e he
    rw [he]
    rfl
  · exact dispatch_getElem n _ order i hmem hlt

/-- Witness for C5: two pages, page 0's OCR call raises "quota". -/
theorem ocr_never_raises_and_flows_into_document_witness :
    (0 : Nat) < 2 ∧ (0 : Nat) ∈ ([1, 0] : List Nat) ∧
    ocr_image_with_gemini
        ((fun j => if j = 0 then Except.error "quota" else Except.ok "text") 0)
      = "Error: " ++ "quota" ∧
    (dispatch 2
        (fun j => Except.ok (ocr_image_with_gemini
          ((fun k => if k = 0 then Except.error "quota" else Except.ok "text") j)))
        [1, 0])[0]?
      = some (ocr_image_with_gemini
          ((fun j => if j = 0 then Except.error "quota" else Except.ok "text") 0)) :=
  ⟨by decide, by decide,
   (ocr_never_raises_and_flows_into_document 2
      (fun j => if j = 0 then Except.error "quota" else Except.ok "text")
      [1, 0] 0 (by decide) (by decide)).2.1 "quota" rfl,
   (ocr_never_raises_and_flows_into_document 2
      (fun j => if j = 0 then Except.error "quota" else Except.ok "text")
      [1, 0] 0 (by decide) (by decide)).2.2⟩

/-! ### Configuration data (load_config / setup_config defaults)

The YAML config document: `process_single_file` accesses
`config["gemini"]["model"]`, `config["gemini"]["prompt"]`,
`config["template"]["path"]`, `config["template"]["variables"]` (guarded by an
`in` test) and `config.get("output", {}).get("encoding", "utf-8")`.
A missing `gemini` or `template` section makes the subscript raise `KeyError`,
which is caught by the outer `except` of `process_single_file`; the sections
are therefore modelled as `Option`s of records. -/

structure GeminiSection where
  model : String
  prompt : String
  deriving DecidableEq

structure TemplateSection where
  path : String
  vars : List (String × String)
  deriving DecidableEq

structure Config where
  gemini : Option GeminiSection
  template : Option TemplateSection
  output_encoding : Option String
  deriving DecidableEq

/-! ### Python string truthiness for `full_text.strip()` (line 186)

`str.strip()` removes leading and trailing whitespace; the `if` then tests the
result for non-emptiness. -/

def isPySpace (c : Char) : Bool :=
  c = ' ' || c = '\t' || c = '\n' || c = '\r' || c = '\x0b' || c = '\x0c'

/-- Python `s.strip()` restricted to the ASCII whitespace Python strips,
on the character list of the string. -/
def pyStripList (cs : List Char) : List Char :=
  ((cs.dropWhile isPySpace).reverse.dropWhile isPySpace).reverse

/-- Python `s.strip()`. -/
def pyStrip (s : String) : String :=
  String.mk (pyStripList s.data)

/-! ### Document renderer (render_markdown, lines 140-152)

`render_markdown` wraps the whole template lookup / render / file write in a
`try` whose `except` only logs: it never raises to its caller. The external
work is an `Except String String` (`ok content` = rendered text written to the
output file, `error e` = some step raised `e`). The return value models what
was written: `some content`, or `none` when the exception path ran. -/

def render_markdown (attempt : Except String String) : Option String :=
  match attempt with
  | .ok content => some content
  | .error _ => none

/-! ### process_single_file (lines 154-221) -/

/-- The external behaviour one run of `process_single_file` observes:
the pages `get_images` extracted (only their count matters downstream, the
images themselves go opaquely to the OCR call), what `future.result()` does
for each page task, the completion order `as_completed` yields, and the
outcome of the render/write work inside `render_markdown`. -/
structure PsfWorld where
  pageCount : Nat
  taskOutcome : Nat → Except String String
  completionOrder : List Nat
  renderAttempt : Except String String

/-- `process_single_file`: returns `(return value, whether an output file was
written)`. `if not images: return False`; a `KeyError` from a missing
`gemini` or `template` section is caught by the outer `except` (line 219) and
yields `False`; the dispatcher fills `page_results`; if the joined text strips
to non-empty the document is rendered (`render_markdown` never raises) and the
function returns `True` regardless of the render outcome; otherwise `False`
with no file written. -/
def process_single_file (cfg : Config) (w : PsfWorld) : Bool × Bool :=
  if w.pageCount = 0 then (false, false)
  else
    match cfg.gemini with
    | none => (false, false)
    | some _g =>
      let results := dispatch w.pageCount w.taskOutcome w.completionOrder
      if pyStrip (full_text results) ≠ "" then
        match cfg.template with
        | none => (false, false)
        | some _t =>
          match render_markdown w.renderAttempt with
          | some _content => (true, true)
          | none => (true, false)
      else (false, false)

/-- C4: when the concatenated per-page text is empty or whitespace-only,
`process_single_file` writes no output file and returns `False` (the
document is reported failed; nothing is raised, so the run continues). -/
theorem psf_empty_text_fails (cfg : Config) (w : PsfWorld)
    (h : pyStrip (full_text
          (dispatch w.pageCount w.taskOutcome w.completionOrder)) = "") :
    process_single_file cfg w = (false, false) := by
  unfold process_single_file
  split
  · rfl
  · cases cfg.gemini with
    | none => rfl
    | some g => simp [h]

/-- Witness for C4: one page whose transcription is whitespace. -/
theorem psf_empty_text_fails_witness :
    pyStrip (full_text (dispatch 1 (fun _ => Except.ok "  \n ") [0])) = "" ∧
    process_single_file
        ⟨some ⟨"gemini-1.5-pro", "p"⟩, some ⟨"t.md", []⟩, some "utf-8"⟩
        ⟨1, fun _ => Except.ok "  \n ", [0], Except.ok "rendered"⟩
      = (false, false) :=
  ⟨by decide,
   psf_empty_text_fails
      ⟨some ⟨"gemini-1.5-pro", "p"⟩, some ⟨"t.md", []⟩, some "utf-8"⟩
      ⟨1, fun _ => Except.ok "  \n ", [0], Except.ok "rendered"⟩
      (by decide)⟩

/-- C3 counterexample: a concrete document whose text is non-empty and whose
template rendering fails (`render_markdown`'s internal `try` catches a
missing-template exception and only logs), yet `process_single_file` returns
`True`: the document is NOT treated as failed, contradicting the claim. -/
theorem psf_render_failure_counterexample :
    render_markdown (Except.error "TemplateNotFound") = none ∧
    process_single_file
        ⟨some ⟨"gemini-1.5-pro", "p"⟩, some ⟨"missing.md", []⟩, some "utf-8"⟩
        ⟨1, fun _ => Except.ok "hello", [0], Except.error "TemplateNotFound"⟩
      = (true, false) := by
  constructor
  · rfl
  · decide

/-- C3 amended: a rendering failure is swallowed inside `render_markdown`
(logged only); `process_single_file` still returns `True` for the document —
it is counted successful — although no output file gets written. -/
theorem psf_render_failure_still_success (cfg : Config) (w : PsfWorld)
    (hn : w.pageCount ≠ 0) (g : GeminiSection) (hg : cfg.gemini = some g)
    (t : TemplateSection) (ht : cfg.template = some t)
    (htext : pyStrip (full_text
        (dispatch w.pageCount w.taskOutcome w.completionOrder)) ≠ "")
    (e : String) (hr : w.renderAttempt = Except.error e) :
    process_single_file cfg w = (true, false) := by
  simp [process_single_file, hn, hg, ht, hr, htext, render_markdown]

/-- Witness for the amended C3. -/
theorem psf_render_failure_still_success_witness :
    process_single_file
        ⟨some ⟨"m", "p"⟩, some ⟨"missing.md", []⟩, none⟩
        ⟨2, fun i => Except.ok (toString i), [1, 0], Except.error "bad syntax"⟩
      = (true, false) :=
  psf_render_failure_still_success
    ⟨some ⟨"m", "p"⟩, some ⟨"missing.md", []⟩, none⟩
    ⟨2, fun i => Except.ok (toString i), [1, 0], Except.error "bad syntax"⟩
    (by decide) ⟨"m", "p"⟩ rfl ⟨"missing.md", []⟩ rfl (by decide)
    "bad syntax" rfl

/-! ### Filesystem model and configuration paths (lines 29-89)

The filesystem is a partial map from paths to file contents;
`os.path.exists p` is `(fs p).isSome`. -/

def FS : Type := String → Option String

def pathExists (fs : FS) (p : String) : Bool :=
  (fs p).isSome

/-- `os.path.join(os.path.expanduser("~/.config/handwrite"), "config.yaml")`,
with `home` the expansion of `~`. -/
def defaultConfigPath (home : String) : String :=
  home ++ "/.config/handwrite/config.yaml"

/-- `get_config_path(config_arg=None)` (lines 29-37): the custom path is used
only when the argument is truthy (not `None`, not empty) and the path exists;
otherwise the default path, with no error and no signal. -/
def get_config_path (fs : FS) (home : String) (config_arg : Option String) :
    String :=
  match config_arg with
  | some p => if (p != "") && pathExists fs p then p else defaultConfigPath home
  | none => defaultConfigPath home

/-- `setup_config()` (lines 39-68) as a filesystem transformer: resolve the
default config path; if a file exists there, return (log only); otherwise
create the directory and write `yaml.dump(default_config)` there. `dump` is
that serialized text (the YAML library is external and deterministic on the
fixed default dict). -/
def setup_config (dump : String) (home : String) (fs : FS) : FS :=
  if (fs (get_config_path fs home none)).isSome then fs
  else fun p => if p = get_config_path fs home none then some dump else fs p

theorem setup_config_eq (dump home : String) (fs : FS) :
    setup_config dump home fs =
      if (fs (defaultConfigPath home)).isSome then fs
      else fun p => if p = defaultConfigPath home then some dump else fs p :=
  rfl

/-- C8: `config --setup` is idempotent — a second run performs no write and
leaves the filesystem (hence the file's bytes) unchanged: when a file already
exists at the default path the run is a no-op, and when none exists the run
creates the file with the default content at the default path. -/
theorem setup_config_idempotent (dump home : String) (fs : FS) :
    setup_config dump home (setup_config dump home fs)
      = setup_config dump home fs ∧
    (fs (defaultConfigPath home) = none →
      setup_config dump home fs (defaultConfigPath home) = some dump) ∧
    (∀ c, fs (defaultConfigPath home) = some c →
      setup_config dump home fs = fs) := by
  refine ⟨?_, ?_, ?_⟩
  · rw [setup_config_eq dump home fs]
    by_cases h : (fs (defaultConfigPath home)).isSome
    · rw [if_pos h, setup_config_eq, if_pos h]
    · rw [if_neg h, setup_config_eq]
      have h2 : (((fun p => if p = defaultConfigPath home then some dump
          else fs p) (defaultConfigPath home))).isSome := by simp
      rw [if_pos h2]
  · intro h
    rw [setup_config_eq]
    simp [h]
  · intro c h
    rw [setup_config_eq]
    simp [h]

/-- Witness for C8: an empty filesystem, then a second run. -/
theorem setup_config_idempotent_witness :
    ((fun _ => none : FS) (defaultConfigPath "/root") = none) ∧
    setup_config "dump" "/root" (fun _ => none) (defaultConfigPath "/root")
      = some "dump" ∧
    setup_config "dump" "/root" (setup_config "dump" "/root" (fun _ => none))
      = setup_config "dump" "/root" (fun _ => none) :=
  ⟨rfl,
   (setup_config_idempotent "dump" "/root" (fun _ => none)).2.1 rfl,
   (setup_config_idempotent "dump" "/root" (fun _ => none)).1⟩

/-- C9: when `--config` names a path that does not exist, `get_config_path`
silently returns the default path `~/.config/handwrite/config.yaml` — no
error, no signal that the supplied path was ignored — and a supplied custom
path is used only when it exists at resolution time. -/
theorem get_config_path_silent_fallback (fs : FS) (home p : String)
    (h : fs p = none) :
    get_config_path fs home (some p) = defaultConfigPath home ∧
    (∀ q, q ≠ "" → (fs q).isSome = true → get_config_path fs home (some q) = q) := by
  constructor
  · simp [get_config_path, pathExists, h]
  · intro q hq hqs
    simp [get_config_path, pathExists, hq, hqs]

/-- Witness for C9: a nonexistent custom path on a filesystem holding only
the default file. -/
theorem get_config_path_silent_fallback_witness :
    ((fun q => if q = defaultConfigPath "/home/u" then some "cfg" else none : FS)
        "/tmp/missing.yaml" = none) ∧
    get_config_path
        (fun q => if q = defaultConfigPath "/home/u" then some "cfg" else none)
        "/home/u" (some "/tmp/missing.yaml")
      = defaultConfigPath "/home/u" :=
  ⟨by decide,
   (get_config_path_silent_fallback
      (fun q => if q = defaultConfigPath "/home/u" then some "cfg" else none)
      "/home/u" "/tmp/missing.yaml" (by decide)).1⟩

/-! ### load_config (lines 70-89)

`yaml.safe_load` is external: modelled as `parse : String → Option Config`
(`none` = the parser raised, propagating to `load_config`'s caller; `some c` =
the parsed document, possibly with sections missing). `load_config` performs
no validation of the parsed value. -/

/-- The in-memory defaults returned when the config file is missing
(lines 74-87); `moduleDir` is `os.path.dirname(__file__)`. -/
def defaultConfig (moduleDir : String) : Config :=
  ⟨some ⟨"gemini-1.5-pro", "Extract the handwritten text from this image."⟩,
   some ⟨moduleDir ++ "/templates/note_template.md", []⟩,
   some "utf-8"⟩

def load_config (fs : FS) (moduleDir : String)
    (parse : String → Option Config) (path : String) : Option Config :=
  match fs path with
  | none => some (defaultConfig moduleDir)
  | some content => parse content

/-- A config whose `gemini` or `template` section is missing makes every
document fail per-document: the subscript raises `KeyError`, caught by the
outer `except` of `process_single_file`, which returns `False`. -/
theorem psf_missing_section_fails (cfg : Config) (w : PsfWorld)
    (h : cfg.gemini = none ∨ cfg.template = none) :
    (process_single_file cfg w).1 = false := by
  rcases h with h | h
  · simp [process_single_file, h]
  · cases hg : cfg.gemini with
    | none => simp [process_single_file, hg]
    | some g => simp [process_single_file, hg, h]

/-! ### File discovery in process_command (lines 228-241)

A directory listing is a list of `FileEntry`: the chain of sub-directory
names from the input directory down to the file, plus the file name. The
loop runs `glob.glob(os.path.join(dir, f"*.{ext}"))` followed by
`glob.glob(os.path.join(dir, "**", f"*.{ext}"), recursive=True)` for the
eight patterns and extends `input_paths` with each result. glob matching is
case-sensitive; `*` and `**` do not match a leading dot. -/

structure FileEntry where
  dirs : List String
  name : String
  deriving DecidableEq

/-- The eight extension patterns of line 232, in loop order. -/
def extPatterns : List String :=
  ["pdf", "PDF", "png", "PNG", "jpg", "JPG", "jpeg", "JPEG"]

def nameEndsWith (name suffix : String) : Bool :=
  suffix.data.isSuffixOf name.data

def nameHidden (name : String) : Bool :=
  match name.data with
  | [] => false
  | c :: _ => c = '.'

/-- A file name matches the glob component `*.{ext}`: it ends in `.{ext}`
(case-sensitively) and `*` does not match a leading dot. -/
def matchesExt (ext : String) (name : String) : Bool :=
  nameEndsWith name ("." ++ ext) && !nameHidden name

/-- `glob.glob(os.path.join(dir, f"*.{ext}"))`: matches exactly the files
directly in the input directory. -/
def topMatch (ext : String) (e : FileEntry) : Bool :=
  e.dirs.isEmpty && matchesExt ext e.name

/-- `glob.glob(os.path.join(dir, "**", f"*.{ext}"), recursive=True)`: `**`
matches zero or more (non-hidden) directories, so this also matches files
directly in the input directory. -/
def recMatch (ext : String) (e : FileEntry) : Bool :=
  e.dirs.all (fun d => !nameHidden d) && matchesExt ext e.name

/-- The discovery loop: per pattern, extend with the non-recursive then the
recursive glob results. -/
def discover (files : List FileEntry) : List FileEntry :=
  extPatterns.foldl
    (fun acc ext =>
      acc ++ files.filter (topMatch ext) ++ files.filter (recMatch ext))
    []

theorem count_filter_eq {α : Type} [DecidableEq α] (p : α → Bool)
    (l : List α) (a : α) :
    (l.filter p).count a = if p a then l.count a else 0 := by
  by_cases h : p a
  · rw [if_pos h]
    exact List.count_filter h
  · rw [if_neg h, List.count_eq_zero]
    intro hmem
    exact h (List.of_mem_filter hmem)

theorem discover_foldl_count (files : List FileEntry) (e : FileEntry)
    (ps : List String) (acc : List FileEntry) :
    (ps.foldl
        (fun acc ext =>
          acc ++ files.filter (topMatch ext) ++ files.filter (recMatch ext))
        acc).count e
      = acc.count e
        + files.count e *
            ((ps.map (fun ext =>
              (if topMatch ext e then 1 else 0)
                + (if recMatch ext e then 1 else 0))).sum) := by
  induction ps generalizing acc with
  | nil => simp
  | cons ext rest ih =>
    simp only [List.foldl_cons, List.map_cons, List.sum_cons]
    rw [ih, List.count_append, List.count_append,
      count_filter_eq, count_filter_eq]
    by_cases h1 : topMatch ext e <;> by_cases h2 : recMatch ext e <;>
      simp [h1, h2] <;> ring

/-- C7 counterexample: a directory with the single file `a.pdf` at top level
is discovered twice (once by the non-recursive and once by the recursive glob
of the `pdf` pattern), and a file `b.Pdf` with a mixed-case extension is not
discovered at all — refuting both the each-file-exactly-once and the
case-insensitivity parts of the claim. -/
theorem discover_counterexample :
    (discover [⟨[], "a.pdf"⟩]).count ⟨[], "a.pdf"⟩ = 2 ∧
    discover [⟨[], "b.Pdf"⟩] = [] := by
  constructor
  · decide
  · decide

/-- C7 amended: discovery returns exactly the files matching one of the eight
case-sensitive patterns `*.pdf, *.PDF, *.png, *.PNG, *.jpg, *.JPG, *.jpeg,
*.JPEG` (all-lowercase or all-uppercase; mixed-case extensions are missed),
with multiplicity: for each matching pattern a file in a (non-hidden) chain
of subdirectories is listed once, and a file directly in the input directory
is listed twice — once by the non-recursive and once by the recursive glob —
so top-level files are processed twice. -/
theorem discover_count_characterization (files : List FileEntry)
    (e : FileEntry) :
    (discover files).count e
      = files.count e *
          ((extPatterns.map (fun ext =>
            (if topMatch ext e then 1 else 0)
              + (if recMatch ext e then 1 else 0))).sum) := by
  rw [discover, discover_foldl_count]
  simp

/-! ### configure_genai (lines 91-102) and process_command (lines 223-271) -/

/-- `configure_genai`: raises `ValueError` when `GEMINI_API_KEY` is absent;
otherwise calls `genai.configure`, whose own failure re-raises
(`externalOk` models whether that external call succeeds). -/
def configure_genai (apiKey : Option String) (externalOk : Bool) :
    Except String Unit :=
  match apiKey with
  | none =>
    .error "GEMINI_API_KEY not found in environment variables or .env file"
  | some _ => if externalOk then .ok () else .error "configure failed"

/-- The path string `root/d₁/.../dₖ/name` of a discovered entry. -/
def entryPath (root : String) (e : FileEntry) : String :=
  (e.dirs ++ [e.name]).foldl (fun acc c => acc ++ "/" ++ c) root

/-- Everything one run of `process_command` observes about the outside world:
the `os.path.isfile` / `os.path.isdir` answers for the input path, the
directory listing glob walks, the output-directory check, the CLI `--config`
argument, the filesystem, `$HOME`, the module directory, the YAML parser, the
API key, whether `genai.configure` succeeds, and the external behaviour of
each document's page pipeline. -/
structure World where
  isFile : Bool
  isDir : Bool
  inputPath : String
  dirListing : List FileEntry
  outputDirIsDir : Bool
  configArg : Option String
  fs : FS
  home : String
  moduleDir : String
  parseYaml : String → Option Config
  apiKey : Option String
  configureOk : Bool
  docWorld : String → PsfWorld

/-- Lines 243-271: the output-directory check and the `try` body applied to
the resolved input paths — exit 1 when the output directory is missing, when
`load_config` (YAML parse) or `configure_genai` raises, or when any document
failed; otherwise fall through (exit 0). -/
def processPaths (w : World) (paths : List String) : Nat :=
  if !w.outputDirIsDir then 1
  else
    match load_config w.fs w.moduleDir w.parseYaml
        (get_config_path w.fs w.home w.configArg) with
    | none => 1
    | some cfg =>
      match configure_genai w.apiKey w.configureOk with
      | .error _ => 1
      | .ok _ =>
        if (paths.filter
              (fun p => !(process_single_file cfg (w.docWorld p)).1)).length > 0
        then 1 else 0

/-- `process_command` (lines 223-271): resolve a single file or a directory
(batch discovery; exit 1 if the directory yields nothing or the path is
neither file nor directory), then run the per-path processing. -/
def process_command (w : World) : Nat :=
  if w.isFile then processPaths w [w.inputPath]
  else if w.isDir then
    if ((discover w.dirListing).map (entryPath w.inputPath)).isEmpty then 1
    else processPaths w ((discover w.dirListing).map (entryPath w.inputPath))
  else 1

/-- The input paths the orchestrator iterates over when resolution succeeds. -/
def resolvedPaths (w : World) : List String :=
  if w.isFile then [w.inputPath]
  else (discover w.dirListing).map (entryPath w.inputPath)

theorem processPaths_zero_or_one (w : World) (paths : List String) :
    processPaths w paths = 0 ∨ processPaths w paths = 1 := by
  unfold processPaths
  split
  · exact Or.inr rfl
  · split
    · exact Or.inr rfl
    · split
      · exact Or.inr rfl
      · split
        · exact Or.inr rfl
        · exact Or.inl rfl

theorem all_true_iff_filter_len (cfg : Config) (w : World)
    (paths : List String) :
    (paths.filter
        (fun p => !(process_single_file cfg (w.docWorld p)).1)).length = 0 ↔
      ∀ p ∈ paths, (process_single_file cfg (w.docWorld p)).1 = true := by
  rw [List.length_eq_zero, List.filter_eq_nil_iff]
  constructor
  · intro h p hp
    have := h p hp
    simpa using this
  · intro h p hp
    simp [h p hp]

theorem processPaths_eq_zero_iff (w : World) (paths : List String) :
    processPaths w paths = 0 ↔
      (w.outputDirIsDir = true ∧
       ∃ cfg, load_config w.fs w.moduleDir w.parseYaml
            (get_config_path w.fs w.home w.configArg) = some cfg ∧
          configure_genai w.apiKey w.configureOk = .ok () ∧
          ∀ p ∈ paths, (process_single_file cfg (w.docWorld p)).1 = true) := by
  cases houtd : w.outputDirIsDir with
  | false => simp [processPaths, houtd]
  | true =>
    cases hload : load_config w.fs w.moduleDir w.parseYaml
        (get_config_path w.fs w.home w.configArg) with
    | none => simp [processPaths, houtd, hload]
    | some cfg =>
      cases hconf : configure_genai w.apiKey w.configureOk with
      | error e => simp [processPaths, houtd, hload, hconf]
      | ok u =>
        cases u
        by_cases hfail : 0 <
            (paths.filter
              (fun p => !(process_single_file cfg (w.docWorld p)).1)).length
        · rw [show processPaths w paths = 1 by
            simp [processPaths, houtd, hload, hconf, hfail]]
          constructor
          · intro h
            exact absurd h (by decide)
          · rintro ⟨-, cfg', hload', -, hall⟩
            injection hload' with hcfg
            subst hcfg
            have hzero := (all_true_iff_filter_len cfg w paths).mpr hall
            omega
        · have hzero := Nat.eq_zero_of_not_pos hfail
          rw [show processPaths w paths = 0 by
            simp [processPaths, houtd, hload, hconf, hfail]]
          exact iff_of_true rfl
            ⟨rfl, cfg, rfl, rfl,
             (all_true_iff_filter_len cfg w paths).mp hzero⟩

theorem process_command_run (w : World)
    (h : w.isFile = true ∨
      (w.isFile = false ∧ w.isDir = true ∧ discover w.dirListing ≠ [])) :
    process_command w = processPaths w (resolvedPaths w) := by
  rcases h with h | ⟨hf, hd, hne⟩
  · simp [process_command, resolvedPaths, h]
  · simp [process_command, resolvedPaths, hf, hd, hne]

theorem process_command_zero_or_one (w : World) :
    process_command w = 0 ∨ process_command w = 1 := by
  unfold process_command
  split
  · exact processPaths_zero_or_one w _
  · split
    · split
      · exact Or.inr rfl
      · exact processPaths_zero_or_one w _
    · exact Or.inr rfl

theorem processPaths_one_of_out (w : World) (paths : List String)
    (h : w.outputDirIsDir = false) : processPaths w paths = 1 := by
  simp [processPaths, h]

theorem processPaths_one_of_no_key (w : World) (paths : List String)
    (h : w.apiKey = none) : processPaths w paths = 1 := by
  rcases processPaths_zero_or_one w paths with h0 | h1
  · rw [processPaths_eq_zero_iff] at h0
    obtain ⟨-, cfg, -, hconf, -⟩ := h0
    rw [h] at hconf
    simp [configure_genai] at hconf
  · exact h1

theorem process_command_one_of_all (w : World)
    (h : ∀ paths, processPaths w paths = 1) : process_command w = 1 := by
  unfold process_command
  split
  · exact h _
  · split
    · split
      · rfl
      · exact h _
    · rfl

/-- C6: the process subcommand's exit code is always 0 or 1; it is 0 exactly
when input resolution succeeded (an existing file, or a directory yielding at
least one discovered file), the output directory exists, the config loaded,
Gemini was configured, and every resolved document was processed
successfully; and it is 1 — before any document is processed — when the
input path is neither file nor directory, when a directory input yields zero
supported files, when the output directory does not exist, or when the API
key is absent. -/
theorem process_command_exit_code (w : World) :
    (process_command w = 0 ∨ process_command w = 1) ∧
    (process_command w = 0 ↔
      ((w.isFile = true ∨
          (w.isFile = false ∧ w.isDir = true ∧ discover w.dirListing ≠ [])) ∧
       w.outputDirIsDir = true ∧
       ∃ cfg, load_config w.fs w.moduleDir w.parseYaml
            (get_config_path w.fs w.home w.configArg) = some cfg ∧
          configure_genai w.apiKey w.configureOk = .ok () ∧
          ∀ p ∈ resolvedPaths w,
            (process_single_file cfg (w.docWorld p)).1 = true)) ∧
    (w.isFile = false → w.isDir = false → process_command w = 1) ∧
    (w.isFile = false → w.isDir = true → discover w.dirListing = [] →
      process_command w = 1) ∧
    (w.outputDirIsDir = false → process_command w = 1) ∧
    (w.apiKey = none → process_command w = 1) := by
  refine ⟨process_command_zero_or_one w, ?_, ?_, ?_, ?_, ?_⟩
  · constructor
    · intro h0
      have hres : w.isFile = true ∨
          (w.isFile = false ∧ w.isDir = true ∧ discover w.dirListing ≠ []) := by
        cases hf : w.isFile with
        | true => exact Or.inl rfl
        | false =>
          cases hd : w.isDir with
          | false =>
            rw [show process_command w = 1 by
              simp [process_command, hf, hd]] at h0
            exact absurd h0 one_ne_zero
          | true =>
            by_cases hne : discover w.dirListing = []
            · rw [show process_command w = 1 by
                simp [process_command, hf, hd, hne]] at h0
              exact absurd h0 one_ne_zero
            · exact Or.inr ⟨rfl, rfl, hne⟩
      rw [process_command_run w hres, processPaths_eq_zero_iff] at h0
      exact ⟨hres, h0⟩
    · rintro ⟨hres, hrest⟩
      rw [process_command_run w hres, processPaths_eq_zero_iff]
      exact hrest
  · intro hf hd
    simp [process_command, hf, hd]
  · intro hf hd hdisc
    simp [process_command, hf, hd, hdisc]
  · intro hout
    exact process_command_one_of_all w
      (fun paths => processPaths_one_of_out w paths hout)
  · intro hkey
    exact process_command_one_of_all w
      (fun paths => processPaths_one_of_no_key w paths hkey)

/-- Witness for C6 at a concrete world with the API key absent. -/
theorem process_command_exit_code_witness :
    process_command
        ⟨true, false, "/in/a.pdf", [], true, none, fun _ => none, "/h", "/m",
         fun _ => none, none, true,
         fun _ => ⟨1, fun _ => Except.ok "x", [0], Except.ok "r"⟩⟩ = 1 :=
  (process_command_exit_code
    ⟨true, false, "/in/a.pdf", [], true, none, fun _ => none, "/h", "/m",
     fun _ => none, none, true,
     fun _ => ⟨1, fun _ => Except.ok "x", [0], Except.ok "r"⟩⟩).2.2.2.2.2 rfl

/-- C10: `load_config` returns the parsed YAML with no validation — a
configuration file lacking the `gemini` or `template` section still loads
successfully — and the missing keys then make every document of the run fail
individually (the `KeyError` is caught inside `process_single_file`): every
resolved path is iterated and tallied as failed, and the exit code is 1 after
processing, not a fatal configuration error before processing (the output
directory, API key and `genai.configure` checks all pass). -/
theorem load_config_no_validation (w : World) (content : String) (cfg : Config)
    (hfile : w.fs (get_config_path w.fs w.home w.configArg) = some content)
    (hparse : w.parseYaml content = some cfg)
    (hmiss : cfg.gemini = none ∨ cfg.template = none)
    (hres : w.isFile = true ∨
      (w.isFile = false ∧ w.isDir = true ∧ discover w.dirListing ≠ []))
    (hout : w.outputDirIsDir = true)
    (k : String) (hkey : w.apiKey = some k)
    (hconfOk : w.configureOk = true) :
    load_config w.fs w.moduleDir w.parseYaml
        (get_config_path w.fs w.home w.configArg) = some cfg ∧
    (∀ p, (process_single_file cfg (w.docWorld p)).1 = false) ∧
    ((resolvedPaths w).filter
        (fun p => !(process_single_file cfg (w.docWorld p)).1))
      = resolvedPaths w ∧
    process_command w = 1 := by
  have hload : load_config w.fs w.moduleDir w.parseYaml
      (get_config_path w.fs w.home w.configArg) = some cfg := by
    unfold load_config
    rw [hfile]
    exact hparse
  have hfailAll : ∀ p, (process_single_file cfg (w.docWorld p)).1 = false :=
    fun p => psf_missing_section_fails cfg (w.docWorld p) hmiss
  have hfilter : (resolvedPaths w).filter
      (fun p => !(process_single_file cfg (w.docWorld p)).1)
        = resolvedPaths w :=
    List.filter_eq_self.mpr (fun p _ => by rw [hfailAll p]; rfl)
  have hconf : configure_genai w.apiKey w.configureOk = Except.ok () := by
    rw [hkey]
    simp [configure_genai, hconfOk]
  have hne : resolvedPaths w ≠ [] := by
    rcases hres with h | ⟨hf, hd, hne⟩
    · simp [resolvedPaths, h]
    · simp [resolvedPaths, hf, hne]
  refine ⟨hload, hfailAll, hfilter, ?_⟩
  rw [process_command_run w hres]
  have hpos : 0 < ((resolvedPaths w).filter
      (fun p => !(process_single_file cfg (w.docWorld p)).1)).length := by
    rw [hfilter]
    exact List.length_pos.mpr hne
  simp [processPaths, hout, hload, hconf, hpos]

/-- A concrete world for the C10 witness: a single-file run whose config file
parses to a document with no `gemini` section. -/
def exampleWorld10 : World :=
  ⟨true, false, "/in/a.pdf", [], true, none,
   (fun q => if q = defaultConfigPath "/h" then some "no-gemini" else none),
   "/h", "/m",
   (fun _ => some ⟨none, some ⟨"t.md", []⟩, some "utf-8"⟩),
   some "KEY", true,
   fun _ => ⟨1, fun _ => Except.ok "x", [0], Except.ok "r"⟩⟩

/-- Witness for C10. -/
theorem load_config_no_validation_witness :
    load_config exampleWorld10.fs exampleWorld10.moduleDir
        exampleWorld10.parseYaml
        (get_config_path exampleWorld10.fs exampleWorld10.home
          exampleWorld10.configArg)
      = some ⟨none, some ⟨"t.md", []⟩, some "utf-8"⟩ ∧
    process_command exampleWorld10 = 1 :=
  ⟨(load_config_no_validation exampleWorld10 "no-gemini"
      ⟨none, some ⟨"t.md", []⟩, some "utf-8"⟩ (by decide) rfl (Or.inl rfl)
      (Or.inl rfl) rfl "KEY" rfl rfl).1,
   (load_config_no_validation exampleWorld10 "no-gemini"
      ⟨none, some ⟨"t.md", []⟩, some "utf-8"⟩ (by decide) rfl (Or.inl rfl)
      (Or.inl rfl) rfl "KEY" rfl rfl).2.2.2⟩

end Handwrite
